import Mathlib

/-!
Shallow embedding of the collaborative-whiteboard client
(`src/src/App.jsx`) and proofs about its synchronization behavior.

The source is a single React component.  We embed each handler as a pure
function from its inputs (and the relevant component state) to the list
of externally observable effects it performs: renderer calls (canvas
drawing), STOMP publishes, and history-store requests.  React state
(`isDrawing`, `lastPos`, `color`, `lineWidth`, `tool`, `connectedUsers`)
is modelled as an explicit `EngineState` record threaded through the
handlers.  JavaScript numbers used as canvas coordinates are modelled as
`Int`; `undefined`/absent JSON fields are modelled with `Option`.
-/

namespace Whiteboard

/-- `SESSION_ID` constant from App.jsx line 8. -/
def SESSION_ID : String := "default-session"

/-- One renderer-level operation on the canvas: either a stroked line
segment (with the effective stroke style and composite operation that
`drawLine` sets on the 2D context) or a full clear (`clearRect`). -/
inductive RendererCall where
  | paint (x1 y1 x2 y2 : Int) (strokeStyle : String) (lineWidth : Int)
      (composite : String)
  | wipe
deriving DecidableEq

/-- `drawLine` from App.jsx lines 113-145: erase mode uses
`destination-out` with an opaque stroke style and ignores the passed
color; draw mode uses `source-over` with the passed color.  The JS
parameter default `toolType = "draw"` is applied at call sites that may
pass `undefined` (see `jsUndefOr`). -/
def drawLine (x1 y1 x2 y2 : Int) (strokeColor : String) (strokeWidth : Int)
    (toolType : String) : RendererCall :=
  if toolType = "erase" then
    RendererCall.paint x1 y1 x2 y2 "rgba(0,0,0,1)" strokeWidth "destination-out"
  else
    RendererCall.paint x1 y1 x2 y2 strokeColor strokeWidth "source-over"

/-- `clearCanvas` from App.jsx lines 197-201: wipes the whole surface. -/
def clearCanvas : RendererCall := RendererCall.wipe

/-- JS semantics of passing a possibly-`undefined` value to a parameter
with a default: `undefined` selects the default, any actual string
(including the empty string) is used as-is. -/
def jsUndefOr (d : String) : Option String → String
  | none => d
  | some t => t

/-- JS semantics of `v || d` for a string-or-absent value: absent
(`undefined`/`null`) and the empty string are falsy and select `d`. -/
def jsOrElse (d : String) : Option String → String
  | none => d
  | some t => if t = "" then d else t

/-- Parsed body of an inbound STOMP message (the JSON the subscribe
handler reads at App.jsx lines 51-70).  `type` and `tool` may be absent
from the wire, so they are `Option`. -/
structure Envelope where
  type : Option String
  sessionId : String
  userId : String
  startX : Int
  startY : Int
  endX : Int
  endY : Int
  color : String
  lineWidth : Int
  tool : Option String
deriving DecidableEq

/-- React component state relevant to the synchronization logic. -/
structure EngineState where
  isDrawing : Bool
  lastPosX : Int
  lastPosY : Int
  color : String
  lineWidth : Int
  tool : String
  connectedUsers : Int
deriving DecidableEq

/-- The subscribe handler from App.jsx lines 51-70: parse the body
(given here already parsed), drop the message when its `userId` equals
the local participant id, otherwise dispatch on `type` — `"draw"` paints
a segment via `drawLine` (an absent `tool` falls back to the `drawLine`
parameter default `"draw"`), `"clear"` wipes the canvas, and any other
`type` falls through both checks and does nothing.  The handler never
touches component state, so the state is returned unchanged. -/
def onMessage (localUserId : String) (st : EngineState) (data : Envelope) :
    EngineState × List RendererCall :=
  if data.userId = localUserId then (st, [])
  else
    let draws :=
      if data.type = some "draw" then
        [drawLine data.startX data.startY data.endX data.endY data.color
          data.lineWidth (jsUndefOr "draw" data.tool)]
      else []
    let clears := if data.type = some "clear" then [clearCanvas] else []
    (st, draws ++ clears)

/-- One stored history entry as returned by
`GET /api/whiteboard/history/:sessionId` (consumed at App.jsx lines
94-104). -/
structure HistoryEntry where
  startX : Int
  startY : Int
  endX : Int
  endY : Int
  color : String
  lineWidth : Int
  tool : Option String
deriving DecidableEq

/-- The paint performed for one history entry during replay
(App.jsx lines 95-103): `e.tool || "draw"` supplies the tool. -/
def replayEntry (e : HistoryEntry) : RendererCall :=
  drawLine e.startX e.startY e.endX e.endY e.color e.lineWidth
    (jsOrElse "draw" e.tool)

/-- Wire message bodies built by `JSON.stringify` in `draw`
(App.jsx lines 178-189) and `handleClear` (lines 210-214). -/
inductive WireMsg where
  | drawMsg (sessionId userId : String) (startX startY endX endY : Int)
      (color : String) (lineWidth : Int) (tool : String)
  | clearMsg (sessionId userId : String)
deriving DecidableEq

/-- Externally observable effect of a handler: a renderer call, a STOMP
publish to a destination, or an HTTP DELETE of a session's history. -/
inductive Effect where
  | render (c : RendererCall)
  | publish (destination : String) (msg : WireMsg)
  | deleteHistory (sessionId : String)
deriving DecidableEq

/-- Whether an effect is a broker publish. -/
def Effect.isPublish : Effect → Bool
  | Effect.publish _ _ => true
  | _ => false

/-- `loadHistory` from App.jsx lines 88-108: on a successful fetch
(`some entries`) it paints every entry in stored order via `drawLine`;
on failure (`none`, the catch branch) it only logs and performs no
effects. -/
def loadHistoryRun : Option (List HistoryEntry) → List Effect
  | none => []
  | some entries => entries.map (fun e => Effect.render (replayEntry e))

/-- The publish guard pattern `stompClientRef.current?.connected &&
stompClientRef.current.publish(...)` used at App.jsx lines 175-190 and
206-215: when not connected the publish is skipped entirely — nothing
is sent, queued, or raised. -/
def publishIfConnected (connected : Bool) (destination : String)
    (msg : WireMsg) : List Effect :=
  if connected then [Effect.publish destination msg] else []

/-- A pointer event's client coordinates. -/
structure PointerEv where
  clientX : Int
  clientY : Int
deriving DecidableEq

/-- The canvas bounding rectangle at the time of a pointer event. -/
structure Rect where
  left : Int
  top : Int
deriving DecidableEq

/-- `startDrawing` from App.jsx lines 147-154: set `isDrawing` and reset
the gesture anchor `lastPos` to the pointer-down position. -/
def startDrawing (st : EngineState) (e : PointerEv) (r : Rect) : EngineState :=
  { st with isDrawing := true,
            lastPosX := e.clientX - r.left,
            lastPosY := e.clientY - r.top }

/-- `draw` (the mouse-move handler) from App.jsx lines 156-193: when not
drawing, do nothing; otherwise paint a segment from the anchor to the
current position with the current color/width/tool, publish the matching
`draw` envelope when connected, and advance the anchor. -/
def draw (connected : Bool) (userId : String) (st : EngineState)
    (e : PointerEv) (r : Rect) : EngineState × List Effect :=
  if !st.isDrawing then (st, [])
  else
    let curX := e.clientX - r.left
    let curY := e.clientY - r.top
    let seg := drawLine st.lastPosX st.lastPosY curX curY st.color
      st.lineWidth st.tool
    let pubs := publishIfConnected connected "/app/draw"
      (WireMsg.drawMsg SESSION_ID userId st.lastPosX st.lastPosY curX curY
        st.color st.lineWidth st.tool)
    ({ st with lastPosX := curX, lastPosY := curY },
      Effect.render seg :: pubs)

/-- `stopDrawing` from App.jsx line 195, bound to both mouse-up and
mouse-leave: clears `isDrawing` and performs no effects. -/
def stopDrawing (st : EngineState) : EngineState × List Effect :=
  ({ st with isDrawing := false }, [])

/-- Outcome of the `await axios.delete` in `handleClear`. -/
inductive ClearOutcome where
  | ok
  | deleteFailed
deriving DecidableEq

/-- `handleClear` from App.jsx lines 203-218: wipe the local canvas
first, then publish a `clear` envelope if connected, then issue the
history DELETE request.  The DELETE happening to fail (`deleteOk =
false`) rejects the handler's promise but the earlier effects have
already been performed; nothing is rolled back. -/
def handleClear (connected : Bool) (userId : String) (deleteOk : Bool) :
    List Effect × ClearOutcome :=
  (Effect.render clearCanvas ::
      publishIfConnected connected "/app/draw"
        (WireMsg.clearMsg SESSION_ID userId) ++
      [Effect.deleteHistory SESSION_ID],
    if deleteOk then ClearOutcome.ok else ClearOutcome.deleteFailed)

/-!
Mount sequence (the `useEffect` at App.jsx lines 28-83).  The
synchronous body calls `loadHistory()` WITHOUT awaiting it and then
immediately constructs and activates the STOMP client.  Both the history
fetch and the connection establishment complete asynchronously, and the
code imposes no ordering between their completions, so the engine's
observable trace is determined by the order in which the two completions
are delivered by the event loop.  We model that order as an explicit
schedule of asynchronous completions.
-/

/-- An asynchronous completion delivered to the mounted component:
either the history fetch resolving (with its payload, or `none` for the
catch branch) or `onConnect` firing (which installs the live
subscription). -/
inductive AsyncEv where
  | historyDone (res : Option (List HistoryEntry))
  | connectDone
deriving DecidableEq

/-- An observable engine event in the mount trace: a renderer call, or
the moment the live subscription becomes active (`onConnect` ran
`client.subscribe`). -/
inductive EngineEv where
  | render (c : RendererCall)
  | enterLive
deriving DecidableEq

/-- Whether a trace event is a renderer call. -/
def EngineEv.isRender : EngineEv → Bool
  | EngineEv.render _ => true
  | _ => false

/-- Renderer calls of an effect list, as trace events, in order. -/
def renderEvsOf : List Effect → List EngineEv
  | [] => []
  | Effect.render c :: rest => EngineEv.render c :: renderEvsOf rest
  | _ :: rest => renderEvsOf rest

/-- Trace events produced by one asynchronous completion: the resolved
history fetch paints its entries (App.jsx lines 94-104); `onConnect`
subscribes to the topic, entering the live state (lines 48-73). -/
def asyncStep : AsyncEv → List EngineEv
  | AsyncEv.historyDone res => renderEvsOf (loadHistoryRun res)
  | AsyncEv.connectDone => [EngineEv.enterLive]

/-- Trace of the mounted component for a given delivery schedule of the
two asynchronous completions. -/
def mountRun (sched : List AsyncEv) : List EngineEv :=
  sched.flatMap asyncStep

/-- `true` when every renderer call in the trace happens before the
(first) `enterLive` event, i.e. no paint occurs at or after the moment
the live subscription became active. -/
def rendersBeforeLive : List EngineEv → Bool
  | [] => true
  | EngineEv.enterLive :: rest => rest.all (fun ev => !ev.isRender)
  | _ :: rest => rendersBeforeLive rest

/-!
Gesture runs: a pointer-down followed by a sequence of pointer-move
samples, each move processed by `draw`.
-/

/-- The canvas-local position of a pointer event, as computed in
`startDrawing` and `draw` (`clientX - rect.left`, `clientY - rect.top`). -/
def posOf (m : PointerEv × Rect) : Int × Int :=
  (m.1.clientX - m.2.left, m.1.clientY - m.2.top)

/-- Run `draw` over a list of move samples, threading the component
state and accumulating effects in order. -/
def movesRun (connected : Bool) (userId : String) :
    EngineState → List (PointerEv × Rect) → EngineState × List Effect
  | st, [] => (st, [])
  | st, m :: ms =>
    let step := draw connected userId st m.1 m.2
    let rest := movesRun connected userId step.1 ms
    (rest.1, step.2 ++ rest.2)

/-- A full gesture: `startDrawing` at the pointer-down event, then the
move samples through `draw`. -/
def gestureRun (connected : Bool) (userId : String) (st0 : EngineState)
    (d : PointerEv) (r : Rect) (moves : List (PointerEv × Rect)) :
    EngineState × List Effect :=
  movesRun connected userId (startDrawing st0 d r) moves

/-- The segment endpoints of a painted-line effect, if it is one. -/
def segOf : Effect → Option ((Int × Int) × (Int × Int))
  | Effect.render (RendererCall.paint x1 y1 x2 y2 _ _ _) =>
      some ((x1, y1), (x2, y2))
  | _ => none

/-- Segment endpoints of the line paints in an effect list, in order. -/
def effectSegs (effs : List Effect) : List ((Int × Int) × (Int × Int)) :=
  effs.filterMap segOf

/-- The (start, end) pairs of the segments painted by a gesture. -/
def gestureSegments (connected : Bool) (userId : String) (st0 : EngineState)
    (d : PointerEv) (r : Rect) (moves : List (PointerEv × Rect)) :
    List ((Int × Int) × (Int × Int)) :=
  effectSegs (gestureRun connected userId st0 d r moves).2

/-! Helper lemmas shared by the claim proofs. -/

/-- `drawLine` paints exactly the endpoints it was given, whichever
branch of the tool dispatch runs. -/
theorem segOf_drawLine (x1 y1 x2 y2 : Int) (c : String) (w : Int)
    (t : String) :
    segOf (Effect.render (drawLine x1 y1 x2 y2 c w t))
      = some ((x1, y1), (x2, y2)) := by
  simp only [drawLine]
  split <;> rfl

theorem effectSegs_append (a b : List Effect) :
    effectSegs (a ++ b) = effectSegs a ++ effectSegs b := by
  simp [effectSegs]

theorem effectSegs_publishIfConnected (connected : Bool) (dest : String)
    (msg : WireMsg) :
    effectSegs (publishIfConnected connected dest msg) = [] := by
  unfold publishIfConnected effectSegs
  split <;> rfl

/-- Unfolding of `draw` when a gesture is in progress. -/
theorem draw_isDrawing (connected : Bool) (uid : String) (st : EngineState)
    (hd : st.isDrawing = true) (e : PointerEv) (r : Rect) :
    draw connected uid st e r
      = ({ st with lastPosX := e.clientX - r.left,
                   lastPosY := e.clientY - r.top },
         Effect.render (drawLine st.lastPosX st.lastPosY
             (e.clientX - r.left) (e.clientY - r.top) st.color st.lineWidth
             st.tool) ::
           publishIfConnected connected "/app/draw"
             (WireMsg.drawMsg SESSION_ID uid st.lastPosX st.lastPosY
               (e.clientX - r.left) (e.clientY - r.top) st.color
               st.lineWidth st.tool)) := by
  simp [draw, hd]

/-- The segments painted while `isDrawing` holds chain the anchor
through the successive move positions. -/
theorem movesRun_segs (connected : Bool) (uid : String)
    (moves : List (PointerEv × Rect)) :
    ∀ st : EngineState, st.isDrawing = true →
      effectSegs (movesRun connected uid st moves).2
        = List.zip ((st.lastPosX, st.lastPosY) :: moves.map posOf)
            (moves.map posOf) := by
  induction moves with
  | nil => intro st _; rfl
  | cons m ms ih =>
    intro st hd
    rw [movesRun]
    simp only [draw_isDrawing connected uid st hd m.1 m.2]
    rw [effectSegs_append]
    have hcons : effectSegs (Effect.render (drawLine st.lastPosX st.lastPosY
        (m.1.clientX - m.2.left) (m.1.clientY - m.2.top) st.color
        st.lineWidth st.tool) ::
          publishIfConnected connected "/app/draw"
            (WireMsg.drawMsg SESSION_ID uid st.lastPosX st.lastPosY
              (m.1.clientX - m.2.left) (m.1.clientY - m.2.top) st.color
              st.lineWidth st.tool))
        = [((st.lastPosX, st.lastPosY),
            (m.1.clientX - m.2.left, m.1.clientY - m.2.top))] := by
      unfold effectSegs
      rw [List.filterMap_cons, segOf_drawLine]
      have := effectSegs_publishIfConnected connected "/app/draw"
        (WireMsg.drawMsg SESSION_ID uid st.lastPosX st.lastPosY
          (m.1.clientX - m.2.left) (m.1.clientY - m.2.top) st.color
          st.lineWidth st.tool)
      unfold effectSegs at this
      rw [this]
    rw [hcons, ih { st with lastPosX := m.1.clientX - m.2.left,
                            lastPosY := m.1.clientY - m.2.top } hd]
    simp [posOf]

/-- The gesture's painted segments are exactly the pointer-down
position chained through the move positions. -/
theorem gestureSegments_eq (connected : Bool) (uid : String)
    (st0 : EngineState) (d : PointerEv) (r : Rect)
    (moves : List (PointerEv × Rect)) :
    gestureSegments connected uid st0 d r moves
      = List.zip (posOf (d, r) :: moves.map posOf) (moves.map posOf) := by
  unfold gestureSegments gestureRun
  rw [movesRun_segs connected uid moves (startDrawing st0 d r) rfl]
  rfl

theorem renderEvsOf_map (entries : List HistoryEntry) :
    renderEvsOf (entries.map (fun e => Effect.render (replayEntry e)))
      = entries.map (fun e => EngineEv.render (replayEntry e)) := by
  induction entries with
  | nil => rfl
  | cons e es ih => simp [renderEvsOf, ih]

/-! Concrete values used by witnesses and counterexamples. -/

/-- Initial component state (App.jsx lines 15-19). -/
def exState : EngineState :=
  { isDrawing := false, lastPosX := 0, lastPosY := 0, color := "#2D3748",
    lineWidth := 4, tool := "draw", connectedUsers := 1 }

/-- A self-originated envelope: its `userId` is the local one. -/
def exEchoEnvelope : Envelope :=
  { type := some "draw", sessionId := "default-session",
    userId := "user-abc12345", startX := 0, startY := 0, endX := 10,
    endY := 10, color := "#000000", lineWidth := 4, tool := some "draw" }

/-- A well-formed `draw` envelope from another session and another
user. -/
def exForeignEnvelope : Envelope :=
  { type := some "draw", sessionId := "another-session", userId := "peer-7",
    startX := 0, startY := 0, endX := 5, endY := 5, color := "#ff0000",
    lineWidth := 3, tool := some "draw" }

/-- An envelope with an absent `type` discriminator. -/
def exNoTypeEnvelope : Envelope :=
  { type := none, sessionId := "default-session", userId := "peer-9",
    startX := 3, startY := 3, endX := 4, endY := 4, color := "#123456",
    lineWidth := 2, tool := none }

/-- Two history entries forming a short stroke. -/
def exSeg1 : HistoryEntry :=
  { startX := 0, startY := 0, endX := 1, endY := 1, color := "#000000",
    lineWidth := 4, tool := some "draw" }

def exSeg2 : HistoryEntry :=
  { startX := 1, startY := 1, endX := 2, endY := 2, color := "#000000",
    lineWidth := 4, tool := some "draw" }

/-- A history entry with an absent `tool` field. -/
def exNoToolEntry : HistoryEntry :=
  { startX := 0, startY := 0, endX := 1, endY := 1, color := "#000000",
    lineWidth := 4, tool := none }

/-- A history entry with `tool` present and non-empty. -/
def exEraseEntry : HistoryEntry :=
  { startX := 0, startY := 0, endX := 1, endY := 1, color := "#000000",
    lineWidth := 4, tool := some "erase" }

/-! Claim theorems. -/

/-- General chaining fact for a list of segments that is the zip of a
point list with its shifted self: entry `i`'s start equals entry
`i - 1`'s end. -/
theorem zip_chain_get (l : List ((Int × Int) × (Int × Int)))
    (p0 : Int × Int) (ps : List (Int × Int))
    (hl : l = List.zip (p0 :: ps) ps) (i : Nat) (h1 : 1 ≤ i)
    (h2 : i < l.length) (h0 : i - 1 < l.length) :
    (l.get ⟨i, h2⟩).1 = (l.get ⟨i - 1, h0⟩).2 := by
  subst hl
  obtain ⟨j, rfl⟩ : ∃ j, i = j + 1 := ⟨i - 1, by omega⟩
  simp

/-- First entry of such a zipped segment list starts at `p0`. -/
theorem zip_chain_head (l : List ((Int × Int) × (Int × Int)))
    (p0 : Int × Int) (ps : List (Int × Int))
    (hl : l = List.zip (p0 :: ps) ps) (h3 : 0 < l.length) :
    (l.get ⟨0, h3⟩).1 = p0 := by
  subst hl
  cases ps with
  | nil => simp at h3
  | cons q qs => simp

/-- C1: Echo suppression — an inbound envelope whose `userId` equals
the local participant's id is discarded by the subscribe handler: no
renderer call is made (neither a segment paint nor a canvas wipe) and
the engine state is unchanged. -/
theorem echo_suppression (localUserId : String) (st : EngineState)
    (data : Envelope) (h : data.userId = localUserId) :
    onMessage localUserId st data = (st, []) := by
  simp [onMessage, h]

/-- Witness for C1 at a concrete self-originated envelope. -/
theorem echo_suppression_witness :
    exEchoEnvelope.userId = "user-abc12345"
  ∧ onMessage "user-abc12345" exState exEchoEnvelope = (exState, []) :=
  ⟨rfl, echo_suppression "user-abc12345" exState exEchoEnvelope rfl⟩

/-- C2: the subscribe handler does NOT filter by `sessionId`.  A
well-formed `draw` envelope whose `sessionId` differs from the active
`SESSION_ID`, but whose `userId` differs from the local one, is still
painted: the inbound path performs a renderer call for an event of a
foreign session, contradicting the session-isolation invariant. -/
theorem inbound_ignores_sessionId :
    exForeignEnvelope.sessionId ≠ SESSION_ID
  ∧ (onMessage "user-local" exState exForeignEnvelope).2
      = [RendererCall.paint 0 0 5 5 "#ff0000" 3 "source-over"] :=
  ⟨by decide, by decide⟩

/-- C3 counterexample: the mount effect (App.jsx lines 41-77) calls
`loadHistory()` without awaiting it and then immediately activates the
STOMP client, so the order of the two asynchronous completions is
unconstrained.  In the admissible schedule where the connection
completes first, the live subscription is active before either history
segment is painted: the trace has `enterLive` first and both paints
after it, falsifying history-before-Live. -/
theorem history_paint_after_live :
    mountRun [AsyncEv.connectDone,
        AsyncEv.historyDone (some [exSeg1, exSeg2])]
      = [EngineEv.enterLive, EngineEv.render (replayEntry exSeg1),
         EngineEv.render (replayEntry exSeg2)]
  ∧ rendersBeforeLive (mountRun [AsyncEv.connectDone,
      AsyncEv.historyDone (some [exSeg1, exSeg2])]) = false :=
  ⟨rfl, rfl⟩

/-- C3 amended: history replay paints the fetched entries in stored
order (segment1 then segment2); the paints precede `enterLive` exactly
when the history fetch completes before the connection is established —
the code does not gate live-subscription start on replay completion, so
with the opposite completion order the paints occur after `enterLive`. -/
theorem history_replay_order (entries : List HistoryEntry) :
    (mountRun [AsyncEv.historyDone (some entries), AsyncEv.connectDone]
       = entries.map (fun e => EngineEv.render (replayEntry e))
           ++ [EngineEv.enterLive])
  ∧ (mountRun [AsyncEv.connectDone, AsyncEv.historyDone (some entries)]
       = EngineEv.enterLive ::
           entries.map (fun e => EngineEv.render (replayEntry e))) := by
  constructor <;> simp [mountRun, asyncStep, loadHistoryRun, renderEvsOf_map]

/-- C4: an inbound envelope whose `type` discriminator is absent or
matches neither `"draw"` nor `"clear"` falls through both dispatch
checks: it is dropped with zero renderer calls and the engine state is
left unchanged (the handler is a total function, so the bad message
cannot crash the loop). -/
theorem malformed_event_dropped (localUserId : String) (st : EngineState)
    (data : Envelope) (hd : data.type ≠ some "draw")
    (hc : data.type ≠ some "clear") :
    onMessage localUserId st data = (st, []) := by
  unfold onMessage
  split
  · rfl
  · simp [hd, hc]

/-- Witness for C4 at a concrete envelope with an absent `type`. -/
theorem malformed_event_dropped_witness :
    exNoTypeEnvelope.type ≠ some "draw"
  ∧ exNoTypeEnvelope.type ≠ some "clear"
  ∧ onMessage "user-local" exState exNoTypeEnvelope = (exState, []) :=
  ⟨by decide, by decide,
    malformed_event_dropped "user-local" exState exNoTypeEnvelope
      (by decide) (by decide)⟩

/-- C5: while disconnected, the publish guard is a silent no-op — it
produces no broker interaction for any message, and neither the
mouse-move handler nor the clear handler emits a publish effect when the
client is not connected (nothing is queued or retried; the functions
are total, so no error is raised). -/
theorem disconnected_publish_noop (dest : String) (msg : WireMsg)
    (uid : String) (st : EngineState) (e : PointerEv) (r : Rect)
    (deleteOk : Bool) :
    publishIfConnected false dest msg = []
  ∧ (draw false uid st e r).2.filter Effect.isPublish = []
  ∧ (handleClear false uid deleteOk).1.filter Effect.isPublish = [] := by
  refine ⟨rfl, ?_, ?_⟩
  · cases hd : st.isDrawing
    · simp [draw, hd]
    · simp [draw, hd, publishIfConnected, Effect.isPublish]
  · simp [handleClear, publishIfConnected, Effect.isPublish, clearCanvas]

/-- C6: anchor chaining for one continuous gesture — for segments
painted by a pointer-down followed by move samples, segment `i`'s start
equals segment `i - 1`'s end, the first segment starts at the
pointer-down position, and pointer-up/pointer-leave (`stopDrawing`)
produces no segment. -/
theorem gesture_anchor_chaining (connected : Bool) (uid : String)
    (st0 : EngineState) (d : PointerEv) (r : Rect)
    (moves : List (PointerEv × Rect)) (i : Nat) (h1 : 1 ≤ i)
    (h2 : i < (gestureSegments connected uid st0 d r moves).length)
    (h0 : i - 1 < (gestureSegments connected uid st0 d r moves).length) :
    ((gestureSegments connected uid st0 d r moves).get ⟨i, h2⟩).1
      = ((gestureSegments connected uid st0 d r moves).get ⟨i - 1, h0⟩).2
  ∧ (∀ h3 : 0 < (gestureSegments connected uid st0 d r moves).length,
      ((gestureSegments connected uid st0 d r moves).get ⟨0, h3⟩).1
        = posOf (d, r))
  ∧ (∀ st : EngineState, (stopDrawing st).2 = []) :=
  ⟨zip_chain_get _ _ _ (gestureSegments_eq connected uid st0 d r moves)
      i h1 h2 h0,
    fun h3 => zip_chain_head _ _ _
      (gestureSegments_eq connected uid st0 d r moves) h3,
    fun _ => rfl⟩

/-- Witness for C6: a concrete two-move gesture, checked at `i = 1`. -/
theorem gesture_anchor_chaining_witness :
    ((gestureSegments true "u1" exState { clientX := 10, clientY := 10 }
        { left := 0, top := 0 }
        [({ clientX := 20, clientY := 20 }, { left := 0, top := 0 }),
         ({ clientX := 30, clientY := 10 }, { left := 0, top := 0 })]).get
        ⟨1, by decide⟩).1
      = ((gestureSegments true "u1" exState { clientX := 10, clientY := 10 }
        { left := 0, top := 0 }
        [({ clientX := 20, clientY := 20 }, { left := 0, top := 0 }),
         ({ clientX := 30, clientY := 10 }, { left := 0, top := 0 })]).get
        ⟨0, by decide⟩).2
  ∧ (∀ h3 : 0 < (gestureSegments true "u1" exState
        { clientX := 10, clientY := 10 } { left := 0, top := 0 }
        [({ clientX := 20, clientY := 20 }, { left := 0, top := 0 }),
         ({ clientX := 30, clientY := 10 }, { left := 0, top := 0 })]).length,
      ((gestureSegments true "u1" exState { clientX := 10, clientY := 10 }
        { left := 0, top := 0 }
        [({ clientX := 20, clientY := 20 }, { left := 0, top := 0 }),
         ({ clientX := 30, clientY := 10 }, { left := 0, top := 0 })]).get
        ⟨0, h3⟩).1
        = posOf ({ clientX := 10, clientY := 10 }, { left := 0, top := 0 }))
  ∧ (∀ st : EngineState, (stopDrawing st).2 = []) :=
  gesture_anchor_chaining true "u1" exState { clientX := 10, clientY := 10 }
    { left := 0, top := 0 }
    [({ clientX := 20, clientY := 20 }, { left := 0, top := 0 }),
     ({ clientX := 30, clientY := 10 }, { left := 0, top := 0 })]
    1 (by decide) (by decide) (by decide)

/-- C7: history replay is pure and deterministic — the effects of a
successful replay contain no publish, they are exactly one renderer
paint per stored entry in stored order, and a second replay of the same
sequence yields the identical renderer-call sequence (the replay is a
function of the fetched list alone). -/
theorem replay_pure_deterministic (entries : List HistoryEntry) :
    (loadHistoryRun (some entries)).filter Effect.isPublish = []
  ∧ loadHistoryRun (some entries)
      = entries.map (fun e => Effect.render (replayEntry e))
  ∧ renderEvsOf (loadHistoryRun (some entries))
      = renderEvsOf (loadHistoryRun (some entries)) := by
  refine ⟨?_, rfl, rfl⟩
  induction entries with
  | nil => rfl
  | cons e es ih =>
    simp only [loadHistoryRun, List.map_cons, List.filter_cons,
      Effect.isPublish] at ih ⊢
    exact ih

/-- C8: the clear action wipes the local surface first, then publishes
a `clear` envelope when connected, then issues the history DELETE — and
the effect sequence is the same whether the DELETE succeeds or fails:
nothing is rolled back (only the reported outcome differs). -/
theorem clear_sequence_no_rollback (connected : Bool) (uid : String)
    (deleteOk : Bool) :
    (handleClear connected uid deleteOk).1
      = Effect.render RendererCall.wipe ::
          (if connected then
            [Effect.publish "/app/draw" (WireMsg.clearMsg SESSION_ID uid)]
           else []) ++ [Effect.deleteHistory SESSION_ID]
  ∧ (handleClear connected uid false).1 = (handleClear connected uid true).1
  ∧ (handleClear connected uid false).2 = ClearOutcome.deleteFailed :=
  ⟨rfl, rfl, rfl⟩

/-- C9: the color argument has no influence on the renderer call when
the tool is `erase` — `drawLine` replaces the stroke style with an
opaque constant in erase mode, so two paints differing only in color
produce the identical drawing effect. -/
theorem erase_ignores_color (x1 y1 x2 y2 : Int) (c1 c2 : String)
    (w : Int) :
    drawLine x1 y1 x2 y2 c1 w "erase" = drawLine x1 y1 x2 y2 c2 w "erase" :=
  rfl

/-- C10: replay's tool fallback — a history entry whose `tool` is
absent or falsy (empty string) is painted as a `draw` (composite
`source-over` with the entry's color), not as an erase and not as a
failure; an entry whose `tool` is present and non-empty is painted with
that tool. -/
theorem replay_tool_default (e : HistoryEntry) :
    ((e.tool = none ∨ e.tool = some "") →
      replayEntry e = RendererCall.paint e.startX e.startY e.endX e.endY
        e.color e.lineWidth "source-over")
  ∧ (∀ t : String, e.tool = some t → t ≠ "" →
      replayEntry e = drawLine e.startX e.startY e.endX e.endY e.color
        e.lineWidth t) := by
  constructor
  · rintro (h | h) <;> (unfold replayEntry; rw [h]; rfl)
  · intro t ht hne
    unfold replayEntry
    rw [ht]
    simp [jsOrElse, hne]

/-- Witness for C10: an entry with no `tool` paints as a draw; an entry
with `tool = "erase"` paints as an erase. -/
theorem replay_tool_default_witness :
    replayEntry exNoToolEntry
      = RendererCall.paint 0 0 1 1 "#000000" 4 "source-over"
  ∧ replayEntry exEraseEntry = drawLine 0 0 1 1 "#000000" 4 "erase" :=
  ⟨(replay_tool_default exNoToolEntry).1 (Or.inl rfl),
    (replay_tool_default exEraseEntry).2 "erase" rfl (by decide)⟩

end Whiteboard
